import Mathlib

/-!
Shallow embedding of the LiquidChat real-time chat core
(`apps/chat/consumers.py`, `apps/chat/presence.py`, `apps/chat/middleware.py`,
`config/settings.py`), used to check the natural-language specification
against the code.

Modelling conventions:
- database ids (user ids, conversation ids, private-message ids) are UUIDs
  rendered as strings; we model them as `String`.  `GlobalMessage.id` is a
  `BigAutoField`, modelled as `Nat`.
- each consumer callback is embedded as a pure function from its inputs
  (the parsed frame, the authenticated user, the database contents, the
  outcome of the external persistence call) to the list of side effects it
  performs, in order, together with the exception escaping the handler, if
  any.  Only `json.JSONDecodeError` is caught by `receive`
  (`consumers.py` lines 149-150 and 381-382); every other exception escapes.
- the channel layer's fan-out (`group_send` invoking the handler method
  named by the event's `type` on every consumer in the group) is embedded
  by `deliveredFrames`.
- the Redis presence cache (`django.core.cache`) is an association list from
  keys to the stored boolean; TTL expiry is not modelled, so every cache
  read happens within the TTL window of the latest write.
-/

/-- Authenticated user (`apps/authentication/models.py`).  Only the fields the
chat core reads are modelled. -/
structure User where
  id : String
  username : String
  is_active : Bool
deriving DecidableEq, Repr

/-- Result of `json.loads` on an inbound text frame.  `null` also stands for
Python `None` (both are falsy and have neither `.get` nor `.strip`). -/
inductive JsonValue where
  | null : JsonValue
  | bool (b : Bool) : JsonValue
  | num (n : Int) : JsonValue
  | str (s : String) : JsonValue
  | arr (elems : List JsonValue) : JsonValue
  | obj (fields : List (String × JsonValue)) : JsonValue

/-- Python `x == "lit"` for a decoded JSON value `x`: true exactly when `x`
is a string equal to the literal (values of other types never compare equal
to a string). -/
def JsonValue.isStr : JsonValue → String → Bool
  | JsonValue.str s, t => s == t
  | _, _ => false

/-- Python truthiness of a decoded JSON value (`if not x`). -/
def JsonValue.truthy : JsonValue → Bool
  | JsonValue.null => false
  | JsonValue.bool b => b
  | JsonValue.num n => n != 0
  | JsonValue.str s => s != ""
  | JsonValue.arr elems => !elems.isEmpty
  | JsonValue.obj fields => !fields.isEmpty

/-- String payload of a JSON value (used only where the surrounding code has
already established the value is a string). -/
def JsonValue.asString : JsonValue → String
  | JsonValue.str s => s
  | _ => ""

/-- Python `dict.get(key)`: the stored value, or `None` when absent. -/
def dictGet (fields : List (String × JsonValue)) (key : String) : JsonValue :=
  match fields.find? (fun kv => kv.1 == key) with
  | some kv => kv.2
  | none => JsonValue.null

/-- Python `dict.get(key, default)`. -/
def dictGetD (fields : List (String × JsonValue)) (key : String)
    (dflt : JsonValue) : JsonValue :=
  match fields.find? (fun kv => kv.1 == key) with
  | some kv => kv.2
  | none => dflt

/-- Python exceptions that can escape the code under consideration. -/
inductive PyError where
  | attributeError : PyError
  | valueError : PyError
  | userDoesNotExist : PyError
  | conversationDoesNotExist : PyError
  | persistenceError : PyError
deriving DecidableEq, Repr

/-- Python `str.strip()`: drop leading and trailing whitespace. -/
def pyStrip (s : String) : String :=
  ⟨((s.data.dropWhile Char.isWhitespace).reverse.dropWhile Char.isWhitespace).reverse⟩

/-- Python `len(s)` (a character count). -/
def pyLen (s : String) : Nat :=
  s.data.length

/-- Python `s[:n]`. -/
def pySlice (s : String) (n : Nat) : String :=
  ⟨s.data.take n⟩

/-- Python `.strip()` called on the result of `data.get('content', '')`:
raises `AttributeError` unless the value is a string.  The stripping itself
is performed as the first step of `processContent`. -/
def JsonValue.strOrAttrError : JsonValue → Except PyError String
  | JsonValue.str s => Except.ok s
  | _ => Except.error PyError.attributeError

/-- Setting `MESSAGE_MAX_LENGTH` (`config/settings.py` line 215). -/
def MESSAGE_MAX_LENGTH : Nat := 2000

/-- Setting `PRESENCE_EXPIRY` (`config/settings.py` line 220), seconds. -/
def PRESENCE_EXPIRY : Nat := 60

/-- Broadcast payload of a global message (the dict built at
`consumers.py` lines 137-145). -/
structure GlobalMsgPayload where
  id : Nat
  senderId : String
  senderUsername : String
  content : String
  timestamp : String
deriving DecidableEq, Repr

/-- Delivery payload of a private message (the dict returned by
`send_private_message`, `consumers.py` lines 457-466). -/
structure PrivateMsgPayload where
  id : String
  conversation_id : String
  senderId : String
  senderUsername : String
  content : String
  timestamp : String
deriving DecidableEq, Repr

/-- Event dict handed to `channel_layer.group_send`; its `type` selects the
handler method invoked on each member consumer. -/
inductive ChannelEvent where
  | global_message (message : GlobalMsgPayload) : ChannelEvent
  | user_presence (user_id username status : String) : ChannelEvent
  | private_message (message : PrivateMsgPayload) : ChannelEvent
  | typing_indicator (user_id username conversation_id status : String) : ChannelEvent
deriving DecidableEq, Repr

/-- JSON frame written to one client socket by `self.send`. -/
inductive OutFrame where
  | global_message (message : GlobalMsgPayload) : OutFrame
  | user_presence (user_id username status : String) : OutFrame
  | private_message (message : PrivateMsgPayload) : OutFrame
  | private_message_sent (message : PrivateMsgPayload) : OutFrame
  | typing_indicator (user_id username conversation_id status : String) : OutFrame
deriving DecidableEq, Repr

/-- Observable side effect of one consumer callback, in execution order. -/
inductive Effect where
  | group_add (group channel : String) : Effect
  | group_discard (group channel : String) : Effect
  | cache_set (key : String) (ttl : Nat) : Effect
  | cache_delete (key : String) : Effect
  | update_last_seen (userId : String) : Effect
  | save_global_message (senderId content : String) : Effect
  | save_private_message (senderId conversationId content : String) : Effect
  | update_conversation_timestamp (conversationId : String) : Effect
  | group_send (group : String) (event : ChannelEvent) : Effect
  | socket_send (frame : OutFrame) : Effect
  | accept : Effect
  | close (code : Nat) : Effect
deriving DecidableEq, Repr

/-- Value of `scope['user']` after the authentication middleware ran. -/
inductive ScopeUser where
  | anonymous : ScopeUser
  | auth (u : User) : ScopeUser
deriving DecidableEq, Repr

/-- Conversation row (`apps/chat/models.py`): id plus the participant user
ids in the store's iteration order. -/
structure Conversation where
  id : String
  participants : List String
deriving DecidableEq, Repr

/-- Database contents visible to the consumers. -/
structure DbState where
  users : List User
  conversations : List Conversation
deriving DecidableEq, Repr

/-- Record returned by `save_global_message` (`consumers.py` lines 196-208);
the external store assigns `id` and `timestamp`. -/
structure SavedGlobal where
  id : Nat
  content : String
  timestamp : String
deriving DecidableEq, Repr

/-- Content pipeline of the send branches (`consumers.py` lines 117-127 and
295-303): strip, drop when empty, sanitize, then truncate to
`MESSAGE_MAX_LENGTH`.  The sanitizer (`bleach.clean`) is external and is
passed as a parameter.  `none` means the send is aborted. -/
def processContent (sanitize : String → String) (raw : String) : Option String :=
  let content := pyStrip raw
  if content = "" then none
  else
    let sanitized := sanitize content
    some (if MESSAGE_MAX_LENGTH < pyLen sanitized
          then pySlice sanitized MESSAGE_MAX_LENGTH
          else sanitized)

/-- Content pipeline in the order the specification describes it: validate
non-empty, truncate to the maximum length, then run the sanitizer.  This
definition follows the spec's words and exists only to be compared with
`processContent`, which follows the code. -/
def specProcessContent (sanitize : String → String) (raw : String) : Option String :=
  let content := pyStrip raw
  if content = "" then none
  else
    let truncated := if MESSAGE_MAX_LENGTH < pyLen content
                     then pySlice content MESSAGE_MAX_LENGTH
                     else content
    some (sanitize truncated)

/-- Modelled from the spec: the external sanitizer
(`Sanitize(content) -> content`, which "strips markup"; in the code it is
`bleach.clean(content, tags=[], strip=True)`).  Characters between an
opening angle bracket and the matching closing one are removed. -/
def stripTagsAux : List Char → Bool → List Char
  | [], _ => []
  | c :: cs, false =>
    if c = '<' then stripTagsAux cs true else c :: stripTagsAux cs false
  | c :: cs, true =>
    if c = '>' then stripTagsAux cs false else stripTagsAux cs true

/-- Modelled from the spec: sanitizer entry point, see `stripTagsAux`. -/
def stripTags (s : String) : String :=
  ⟨stripTagsAux s.data false⟩

/-- Handler `GlobalChatConsumer.connect` (`consumers.py` lines 35-70). -/
def GlobalChatConsumer.connect (scopeUser : ScopeUser) (channelName : String) :
    List Effect :=
  match scopeUser with
  | ScopeUser.anonymous => [Effect.close 4001]
  | ScopeUser.auth u =>
    [Effect.group_add "global_chat" channelName,
     Effect.cache_set ("user_presence:" ++ u.id) PRESENCE_EXPIRY,
     Effect.accept,
     Effect.group_send "global_chat"
       (ChannelEvent.user_presence u.id u.username "online")]

/-- Handler `GlobalChatConsumer.disconnect` (`consumers.py` lines 72-101).
`userBound` is `some u` exactly when `connect` passed the gate and assigned
`self.user := u` (so `hasattr(self, 'user')` holds and the user is not
anonymous). -/
def GlobalChatConsumer.disconnect (userBound : Option User)
    (channelName : String) (closeCode : Nat) : List Effect :=
  match userBound, closeCode with
  | none, _ => []
  | some u, _ =>
    [Effect.group_discard "global_chat" channelName,
     Effect.cache_delete ("user_presence:" ++ u.id),
     Effect.update_last_seen u.id,
     Effect.group_send "global_chat"
       (ChannelEvent.user_presence u.id u.username "offline")]

/-- Handler `GlobalChatConsumer.receive` (`consumers.py` lines 103-150).
`parsed` is the outcome of `json.loads` (`none` on `JSONDecodeError`, which
is the only exception caught).  `save` is the external persistence call
`save_global_message`; an `Except.error` models the call raising.  Returns
the effects performed, in order, and the exception escaping the handler. -/
def GlobalChatConsumer.receive (sanitize : String → String) (user : User)
    (parsed : Option JsonValue) (save : String → Except PyError SavedGlobal) :
    List Effect × Option PyError :=
  match parsed with
  | none => ([], none)
  | some (JsonValue.obj fields) =>
    if (dictGet fields "type").isStr "send_global_message" then
      match JsonValue.strOrAttrError (dictGetD fields "content" (JsonValue.str "")) with
      | Except.error e => ([], some e)
      | Except.ok raw =>
        match processContent sanitize raw with
        | none => ([], none)
        | some content =>
          match save content with
          | Except.error e => ([], some e)
          | Except.ok saved =>
            ([Effect.save_global_message user.id content,
              Effect.group_send "global_chat"
                (ChannelEvent.global_message
                  { id := saved.id
                    senderId := user.id
                    senderUsername := user.username
                    content := content
                    timestamp := saved.timestamp })], none)
    else ([], none)
  | some _ => ([], some PyError.attributeError)

/-- Handler method `GlobalChatConsumer.global_message`
(`consumers.py` lines 152-162): forward the broadcast to this socket. -/
def GlobalChatConsumer.global_message (_selfUser : User)
    (message : GlobalMsgPayload) : List OutFrame :=
  [OutFrame.global_message message]

/-- Handler method `GlobalChatConsumer.user_presence`
(`consumers.py` lines 164-179): forward the presence update unless it is
about this session's own user. -/
def GlobalChatConsumer.user_presence (selfUser : User)
    (user_id username status : String) : List OutFrame :=
  if user_id = selfUser.id then []
  else [OutFrame.user_presence user_id username status]

/-- Handler `PrivateChatConsumer.connect` (`consumers.py` lines 234-258). -/
def PrivateChatConsumer.connect (scopeUser : ScopeUser) (channelName : String) :
    List Effect :=
  match scopeUser with
  | ScopeUser.anonymous => [Effect.close 4001]
  | ScopeUser.auth u =>
    [Effect.group_add ("user_" ++ u.id) channelName,
     Effect.cache_set ("user_presence:" ++ u.id) PRESENCE_EXPIRY,
     Effect.accept]

/-- Handler `PrivateChatConsumer.disconnect` (`consumers.py` lines 260-278). -/
def PrivateChatConsumer.disconnect (userBound : Option User)
    (channelName : String) (closeCode : Nat) : List Effect :=
  match userBound, closeCode with
  | none, _ => []
  | some u, _ =>
    [Effect.group_discard ("user_" ++ u.id) channelName,
     Effect.cache_delete ("user_presence:" ++ u.id),
     Effect.update_last_seen u.id]

/-- Helper `PrivateChatConsumer.get_conversation`
(`consumers.py` lines 424-430): `Conversation.DoesNotExist` is caught and
becomes `none`; a non-string id raises out of the ORM lookup and is not
caught. -/
def get_conversation (db : DbState) (conversationId : JsonValue) :
    Except PyError (Option Conversation) :=
  match conversationId with
  | JsonValue.str s => Except.ok (db.conversations.find? (fun c => c.id == s))
  | _ => Except.error PyError.valueError

/-- Helper `PrivateChatConsumer.get_recipient_id`
(`consumers.py` lines 432-440): the first participant of the conversation
other than the current user, or `none`. -/
def get_recipient_id (db : DbState) (conversationId : JsonValue)
    (currentUserId : String) : Except PyError (Option String) :=
  match conversationId with
  | JsonValue.str s =>
    match db.conversations.find? (fun c => c.id == s) with
    | none => Except.ok none
    | some conv =>
      Except.ok ((conv.participants.filter (fun p => p != currentUserId)).head?)
  | _ => Except.error PyError.valueError

/-- Helper `PrivateChatConsumer.send_private_message`
(`consumers.py` lines 442-466): look up the sender and the conversation
(raising `DoesNotExist` when absent — nothing catches these), create the
message row (`create` is the external persistence outcome), touch the
conversation timestamp, and return the message dict.  Note that no check
that the sender is a participant of the conversation is performed. -/
def PrivateChatConsumer.send_private_message (db : DbState)
    (create : Except PyError (String × String)) (userId : String)
    (conversationId : JsonValue) (content : String) :
    Except PyError (List Effect × PrivateMsgPayload) :=
  match db.users.find? (fun u => u.id == userId) with
  | none => Except.error PyError.userDoesNotExist
  | some user =>
    match conversationId with
    | JsonValue.str cid =>
      match db.conversations.find? (fun c => c.id == cid) with
      | none => Except.error PyError.conversationDoesNotExist
      | some _conv =>
        match create with
        | Except.error e => Except.error e
        | Except.ok (mid, ts) =>
          Except.ok
            ([Effect.save_private_message userId cid content,
              Effect.update_conversation_timestamp cid],
             { id := mid
               conversation_id := cid
               senderId := user.id
               senderUsername := user.username
               content := content
               timestamp := ts })
    | _ => Except.error PyError.valueError

/-- Handler `PrivateChatConsumer.receive` (`consumers.py` lines 280-382).
`parsed` is the outcome of `json.loads` (`none` on `JSONDecodeError`, the
only exception caught); `create` is the outcome of the external
`PrivateMessage.objects.create` call. -/
def PrivateChatConsumer.receive (sanitize : String → String) (db : DbState)
    (user : User) (parsed : Option JsonValue)
    (create : Except PyError (String × String)) :
    List Effect × Option PyError :=
  match parsed with
  | none => ([], none)
  | some (JsonValue.obj fields) =>
    if (dictGet fields "type").isStr "send_private_message" then
      match JsonValue.strOrAttrError (dictGetD fields "content" (JsonValue.str "")) with
      | Except.error e => ([], some e)
      | Except.ok raw =>
        if (dictGet fields "conversation_id").truthy = false then ([], none)
        else
          match processContent sanitize raw with
          | none => ([], none)
          | some content =>
            match PrivateChatConsumer.send_private_message db create user.id
                (dictGet fields "conversation_id") content with
            | Except.error e => ([], some e)
            | Except.ok (saveEffects, message) =>
              match get_conversation db (dictGet fields "conversation_id") with
              | Except.error e => (saveEffects, some e)
              | Except.ok none => (saveEffects, none)
              | Except.ok (some _conv) =>
                match get_recipient_id db (dictGet fields "conversation_id") user.id with
                | Except.error e => (saveEffects, some e)
                | Except.ok none => (saveEffects, none)
                | Except.ok (some recipientId) =>
                  (saveEffects ++
                   [Effect.group_send ("user_" ++ recipientId)
                      (ChannelEvent.private_message message),
                    Effect.socket_send (OutFrame.private_message_sent message)],
                   none)
    else if (dictGet fields "type").isStr "typing_start" then
      if (dictGet fields "conversation_id").truthy then
        match get_conversation db (dictGet fields "conversation_id") with
        | Except.error e => ([], some e)
        | Except.ok none => ([], none)
        | Except.ok (some _conv) =>
          match get_recipient_id db (dictGet fields "conversation_id") user.id with
          | Except.error e => ([], some e)
          | Except.ok none => ([], none)
          | Except.ok (some recipientId) =>
            ([Effect.group_send ("user_" ++ recipientId)
                (ChannelEvent.typing_indicator user.id user.username
                  (dictGet fields "conversation_id").asString "typing")], none)
      else ([], none)
    else if (dictGet fields "type").isStr "typing_stop" then
      if (dictGet fields "conversation_id").truthy then
        match get_conversation db (dictGet fields "conversation_id") with
        | Except.error e => ([], some e)
        | Except.ok none => ([], none)
        | Except.ok (some _conv) =>
          match get_recipient_id db (dictGet fields "conversation_id") user.id with
          | Except.error e => ([], some e)
          | Except.ok none => ([], none)
          | Except.ok (some recipientId) =>
            ([Effect.group_send ("user_" ++ recipientId)
                (ChannelEvent.typing_indicator user.id user.username
                  (dictGet fields "conversation_id").asString "stopped")], none)
      else ([], none)
    else ([], none)
  | some _ => ([], some PyError.attributeError)

/-- Handler method `PrivateChatConsumer.private_message`
(`consumers.py` lines 384-393). -/
def PrivateChatConsumer.private_message (_selfUser : User)
    (message : PrivateMsgPayload) : List OutFrame :=
  [OutFrame.private_message message]

/-- Handler method `PrivateChatConsumer.typing_indicator`
(`consumers.py` lines 395-407). -/
def PrivateChatConsumer.typing_indicator (_selfUser : User)
    (user_id username conversation_id status : String) : List OutFrame :=
  [OutFrame.typing_indicator user_id username conversation_id status]

/-- Decoded JWT payload; only the claims the middleware reads are modelled
(`middleware.py` line 87). -/
structure JwtPayload where
  user_id : Option String
  id : Option String
deriving DecidableEq, Repr

/-- Failure modes of `jwt.decode` that `get_user_from_token` catches
(`middleware.py` lines 92-95). -/
inductive JwtError where
  | expiredSignature : JwtError
  | invalidToken : JwtError
deriving DecidableEq, Repr

/-- Python `a or b` over optional strings (an absent claim is `None`, and an
empty string is falsy). -/
def pyOr (a b : Option String) : Option String :=
  match a with
  | some s => if s = "" then b else some s
  | none => b

/-- Helper `JwtAuthMiddleware.get_user` (`middleware.py` lines 99-113):
the user with this id if it exists and is active, else `None`. -/
def JwtAuthMiddleware.get_user (db : DbState) (userId : String) : Option User :=
  db.users.find? (fun u => u.id == userId && u.is_active)

/-- Method `JwtAuthMiddleware.get_user_from_token` (`middleware.py` lines 70-97).
`decoded` is the outcome of the external `jwt.decode` call (signature and
expiry check); both failure modes are caught and fall through to
`AnonymousUser`. -/
def JwtAuthMiddleware.get_user_from_token (db : DbState)
    (decoded : Except JwtError JwtPayload) : ScopeUser :=
  match decoded with
  | Except.error _ => ScopeUser.anonymous
  | Except.ok payload =>
    match pyOr payload.user_id payload.id with
    | none => ScopeUser.anonymous
    | some uid =>
      if uid = "" then ScopeUser.anonymous
      else
        match JwtAuthMiddleware.get_user db uid with
        | none => ScopeUser.anonymous
        | some u => if u.is_active then ScopeUser.auth u else ScopeUser.anonymous

/-- Method `JwtAuthMiddleware.__call__` (`middleware.py` lines 36-68): resolve
`scope['user']`.  `token` is the `token=` query-string parameter if present;
with no token the scope user is `AnonymousUser`.  `decode` is the external
`jwt.decode`. -/
def JwtAuthMiddleware.resolveScopeUser (db : DbState) (token : Option String)
    (decode : String → Except JwtError JwtPayload) : ScopeUser :=
  match token with
  | none => ScopeUser.anonymous
  | some t => JwtAuthMiddleware.get_user_from_token db (decode t)

/-- Redis presence cache, an association list from key to the stored value
(always `True` in this code).  TTL expiry is not modelled: reads happen
within the TTL window of the latest write. -/
def CacheState : Type := List (String × Bool)

/-- Python `cache.set(key, value, ttl)`. -/
def cacheSet (c : CacheState) (key : String) (value : Bool) (_ttl : Nat) :
    CacheState :=
  (key, value) :: c.filter (fun kv => kv.1 != key)

/-- Python `cache.delete(key)`. -/
def cacheDelete (c : CacheState) (key : String) : CacheState :=
  c.filter (fun kv => kv.1 != key)

/-- Python `cache.get(key)` (`None` when absent). -/
def cacheGet (c : CacheState) (key : String) : Option Bool :=
  (c.find? (fun kv => kv.1 == key)).map (fun kv => kv.2)

/-- Interpretation of one effect on the presence cache; effects other than
`cache_set` and `cache_delete` do not touch the cache. -/
def applyEffect (c : CacheState) (e : Effect) : CacheState :=
  match e with
  | Effect.cache_set key ttl => cacheSet c key true ttl
  | Effect.cache_delete key => cacheDelete c key
  | _ => c

/-- Run a list of effects against the presence cache, in order. -/
def applyEffects (c : CacheState) (effects : List Effect) : CacheState :=
  effects.foldl applyEffect c

/-- Function `is_user_online` (`presence.py` lines 58-74): true exactly when
`cache.get('user_presence:<id>')` is not `None`. -/
def is_user_online (c : CacheState) (userId : String) : Bool :=
  (cacheGet c ("user_presence:" ++ userId)).isSome

/-- Which consumer class a socket is served by. -/
inductive ConsumerKind where
  | globalRoom : ConsumerKind
  | privateInbox : ConsumerKind
deriving DecidableEq, Repr

/-- One live socket: its consumer class, authenticated user, channel name,
and the channel-layer groups it has joined. -/
structure Session where
  kind : ConsumerKind
  user : User
  channel : String
  groups : List String
deriving DecidableEq, Repr

/-- Channel-layer dispatch: a `group_send` event invokes, on each consumer of
the group, the handler method named by the event's `type`; a consumer class
without a matching handler method writes nothing. -/
def dispatch (s : Session) (ev : ChannelEvent) : List OutFrame :=
  match s.kind, ev with
  | ConsumerKind.globalRoom, ChannelEvent.global_message m =>
    GlobalChatConsumer.global_message s.user m
  | ConsumerKind.globalRoom, ChannelEvent.user_presence uid un st =>
    GlobalChatConsumer.user_presence s.user uid un st
  | ConsumerKind.privateInbox, ChannelEvent.private_message m =>
    PrivateChatConsumer.private_message s.user m
  | ConsumerKind.privateInbox, ChannelEvent.typing_indicator uid un cid st =>
    PrivateChatConsumer.typing_indicator s.user uid un cid st
  | _, _ => []

/-- Frames written to `target`'s socket when `origin` performs `effects`:
`group_send` fans out through `dispatch` to every session in the group
(including `origin` itself when it is a member), while `self.send` writes
only to `origin`'s own socket. -/
def deliveredFrames (origin target : Session) : List Effect → List OutFrame
  | [] => []
  | e :: rest =>
    (match e with
     | Effect.group_send g ev =>
       if g ∈ target.groups then dispatch target ev else []
     | Effect.socket_send f =>
       if target.channel = origin.channel then [f] else []
     | _ => []) ++ deliveredFrames origin target rest

/-- Strings sharing a left factor are equal exactly when the remainders are. -/
theorem string_append_left_cancel {s a b : String} (h : s ++ a = s ++ b) :
    a = b := by
  cases s with
  | mk sd =>
    cases a with
    | mk ad =>
      cases b with
      | mk bd =>
        simp only [HAppend.hAppend, String.append] at h
        injection h with h2
        exact congrArg String.mk (List.append_cancel_left h2)

/-- Fixture user used by concrete witnesses and counterexamples. -/
def aliceU : User := { id := "A", username := "alice", is_active := true }

/-- Fixture user. -/
def bobU : User := { id := "B", username := "bob", is_active := true }

/-- Fixture user who is not a participant of any conversation. -/
def xavierU : User := { id := "X", username := "xavier", is_active := true }

/-- Empty database fixture. -/
def emptyDb : DbState := { users := [], conversations := [] }

/-- Reading back a key just written returns the written value. -/
theorem cacheGet_set_same (c : CacheState) (k : String) (v : Bool) (ttl : Nat) :
    cacheGet (cacheSet c k v ttl) k = some v := by
  simp [cacheGet, cacheSet, List.find?]

/-- Reading back a key just deleted returns `None`. -/
theorem cacheGet_delete_same (c : CacheState) (k : String) :
    cacheGet (cacheDelete c k) k = none := by
  unfold cacheGet cacheDelete
  rw [List.find?_eq_none.mpr]
  · rfl
  · intro x hx
    have h2 := (List.mem_filter.mp hx).2
    simp only [bne_iff_ne, ne_eq] at h2
    simp only [beq_iff_eq]
    exact h2

/-- C10: disconnect of a session that never authenticated (the gate rejected
it, so no user attribute was ever bound) performs no effect at all — no
group membership removed, no presence entry deleted, no last-seen update —
for every close code, on both consumers. -/
theorem c10_unauthenticated_disconnect_noop :
    ∀ (channelName : String) (closeCode : Nat),
      GlobalChatConsumer.disconnect none channelName closeCode = [] ∧
      PrivateChatConsumer.disconnect none channelName closeCode = [] := by
  intro ch code
  exact ⟨rfl, rfl⟩

/-- C2 counterexample: user A opens two sessions (both `connect` runs
complete, so A is online), then closes only the first one.  The claim says
`IsOnline(A)` must remain true while the second session is still live, but
the code deletes the presence key on any disconnect: `is_user_online`
returns false. -/
theorem c2_counterexample :
    is_user_online
      (applyEffects
        (applyEffects ([] : CacheState)
          (GlobalChatConsumer.connect (ScopeUser.auth aliceU) "ch1"))
        (GlobalChatConsumer.connect (ScopeUser.auth aliceU) "ch2"))
      aliceU.id = true ∧
    is_user_online
      (applyEffects
        (applyEffects
          (applyEffects ([] : CacheState)
            (GlobalChatConsumer.connect (ScopeUser.auth aliceU) "ch1"))
          (GlobalChatConsumer.connect (ScopeUser.auth aliceU) "ch2"))
        (GlobalChatConsumer.disconnect (some aliceU) "ch1" 1000))
      aliceU.id = false := by
  exact ⟨by decide, by decide⟩

/-- C2 (amended): after any connection's `connect` completes,
`is_user_online(user)` is true (within the TTL window); but the disconnect
of ANY one of the user's connections deletes the presence key, so
immediately afterwards `is_user_online(user)` is false even when other
connections of the same user are still open — there is no per-connection
reference counting.  In particular it is false after the last connection
closes. -/
theorem c2_any_disconnect_marks_offline :
    ∀ (u : User) (cache : CacheState) (ch : String) (code : Nat),
      is_user_online
        (applyEffects cache (GlobalChatConsumer.connect (ScopeUser.auth u) ch)) u.id = true ∧
      is_user_online
        (applyEffects cache (PrivateChatConsumer.connect (ScopeUser.auth u) ch)) u.id = true ∧
      is_user_online
        (applyEffects cache (GlobalChatConsumer.disconnect (some u) ch code)) u.id = false ∧
      is_user_online
        (applyEffects cache (PrivateChatConsumer.disconnect (some u) ch code)) u.id = false := by
  intro u cache ch code
  refine ⟨?_, ?_, ?_, ?_⟩ <;>
    simp [GlobalChatConsumer.connect, PrivateChatConsumer.connect,
          GlobalChatConsumer.disconnect, PrivateChatConsumer.disconnect,
          applyEffects, applyEffect, is_user_online,
          cacheGet_set_same, cacheGet_delete_same]

/-- C5: a connection whose authentication gate fails (token missing, decode
error — expired or invalid —, or no active matching user) resolves to the
anonymous scope user, and both consumers react to an anonymous scope user by
closing with code 4001 as their single effect: no accept, no group join, no
presence write.  Conversely any non-anonymous resolution is an active user
present in the store, so a failed gate is never accepted as anonymous. -/
theorem c5_failed_gate_closes_4001 :
    ∀ (db : DbState) (decode : String → Except JwtError JwtPayload)
      (channelName : String),
      JwtAuthMiddleware.resolveScopeUser db none decode = ScopeUser.anonymous ∧
      (∀ t e, decode t = Except.error e →
        JwtAuthMiddleware.resolveScopeUser db (some t) decode = ScopeUser.anonymous) ∧
      (∀ t u, JwtAuthMiddleware.resolveScopeUser db (some t) decode = ScopeUser.auth u →
        u.is_active = true ∧ u ∈ db.users) ∧
      GlobalChatConsumer.connect ScopeUser.anonymous channelName = [Effect.close 4001] ∧
      PrivateChatConsumer.connect ScopeUser.anonymous channelName = [Effect.close 4001] := by
  intro db decode ch
  refine ⟨rfl, ?_, ?_, rfl, rfl⟩
  · intro t e h
    simp [JwtAuthMiddleware.resolveScopeUser, JwtAuthMiddleware.get_user_from_token, h]
  · intro t u h
    simp only [JwtAuthMiddleware.resolveScopeUser,
               JwtAuthMiddleware.get_user_from_token] at h
    split at h
    · exact ScopeUser.noConfusion h
    · split at h
      · exact ScopeUser.noConfusion h
      · split at h
        · exact ScopeUser.noConfusion h
        · split at h
          · exact ScopeUser.noConfusion h
          · split at h
            · rename_i v hg ha
              injection h with h2
              subst h2
              refine ⟨ha, ?_⟩
              unfold JwtAuthMiddleware.get_user at hg
              exact List.mem_of_find?_eq_some hg
            · exact ScopeUser.noConfusion h

/-- Witness for C5 at a concrete input: an invalid token resolves to the
anonymous scope user. -/
theorem c5_witness :
    JwtAuthMiddleware.resolveScopeUser emptyDb (some "token")
      (fun _ => Except.error JwtError.invalidToken) = ScopeUser.anonymous :=
  (c5_failed_gate_closes_4001 emptyDb (fun _ => Except.error JwtError.invalidToken)
    "chan").2.1 "token" JwtError.invalidToken rfl

/-- C8: for a global-room session, a `user_presence` event carrying that
session's own user id produces no write to its socket (self-suppression),
while a `global_message` broadcast on the global group is written to every
member session — the quantification includes `target = origin`, so the
sender receives its own message echo. -/
theorem c8_presence_self_suppressed_message_echoed :
    ∀ (origin target : Session) (m : GlobalMsgPayload) (un st : String),
      target.kind = ConsumerKind.globalRoom →
      (("global_chat" ∈ target.groups) →
        deliveredFrames origin target
          [Effect.group_send "global_chat" (ChannelEvent.global_message m)] =
        [OutFrame.global_message m]) ∧
      deliveredFrames origin target
        [Effect.group_send "global_chat"
          (ChannelEvent.user_presence target.user.id un st)] = [] := by
  intro origin target m un st hk
  constructor
  · intro hmem
    simp [deliveredFrames, hmem, dispatch, hk, GlobalChatConsumer.global_message]
  · simp [deliveredFrames, dispatch, hk, GlobalChatConsumer.user_presence]

/-- Fixture global-room session of user A. -/
def globalSessionA : Session :=
  { kind := ConsumerKind.globalRoom, user := aliceU, channel := "ch1",
    groups := ["global_chat"] }

/-- Witness for C8 at a concrete input: the sending session itself receives
the message echo. -/
theorem c8_witness :
    deliveredFrames globalSessionA globalSessionA
      [Effect.group_send "global_chat" (ChannelEvent.global_message
        { id := 1, senderId := "A", senderUsername := "alice",
          content := "hi", timestamp := "t" })] =
      [OutFrame.global_message
        { id := 1, senderId := "A", senderUsername := "alice",
          content := "hi", timestamp := "t" }] :=
  (c8_presence_self_suppressed_message_echoed globalSessionA globalSessionA
    { id := 1, senderId := "A", senderUsername := "alice",
      content := "hi", timestamp := "t" } "alice" "online" rfl).1 (by decide)

/-- Trace shape of `GlobalChatConsumer.receive`: either no effect is
performed, or the frame was a recognized send whose content passed the
pipeline, persistence succeeded, and the trace is exactly the save followed
by the broadcast of the canonical record. -/
theorem GlobalChatConsumer.receive_shape (sanitize : String → String)
    (user : User) (parsed : Option JsonValue)
    (save : String → Except PyError SavedGlobal) :
    (GlobalChatConsumer.receive sanitize user parsed save).1 = [] ∨
    ∃ raw content saved,
      processContent sanitize raw = some content ∧
      save content = Except.ok saved ∧
      GlobalChatConsumer.receive sanitize user parsed save =
        ([Effect.save_global_message user.id content,
          Effect.group_send "global_chat"
            (ChannelEvent.global_message
              { id := saved.id, senderId := user.id,
                senderUsername := user.username,
                content := content, timestamp := saved.timestamp })], none) := by
  unfold GlobalChatConsumer.receive
  split
  · left; rfl
  · split
    · split
      · left; rfl
      · split
        · left; rfl
        · split
          · left; rfl
          · rename_i raw heq2 x1 content hpc x2 saved hsave
            right
            exact ⟨raw, content, saved, hpc, hsave, rfl⟩
    · left; rfl
  · left; rfl

/-- Inversion of a successful `send_private_message` call: the sender row
was found, the conversation id is a string naming an existing conversation,
the external create succeeded, and the result is the save and touch effects
together with the message dict built from the looked-up sender row. -/
theorem send_private_message_ok_inv (db : DbState)
    (create : Except PyError (String × String)) (uid : String)
    (cidJ : JsonValue) (content : String)
    (pr : List Effect × PrivateMsgPayload)
    (h : PrivateChatConsumer.send_private_message db create uid cidJ content =
      Except.ok pr) :
    ∃ cid dbUser mid ts,
      cidJ = JsonValue.str cid ∧
      db.users.find? (fun x => x.id == uid) = some dbUser ∧
      (∃ conv, db.conversations.find? (fun c => c.id == cid) = some conv) ∧
      create = Except.ok (mid, ts) ∧
      pr = ([Effect.save_private_message uid cid content,
             Effect.update_conversation_timestamp cid],
            { id := mid, conversation_id := cid, senderId := dbUser.id,
              senderUsername := dbUser.username, content := content,
              timestamp := ts }) := by
  unfold PrivateChatConsumer.send_private_message at h
  split at h
  · exact Except.noConfusion h
  · split at h
    · split at h
      · exact Except.noConfusion h
      · split at h
        · exact Except.noConfusion h
        · rename_i dbUser hfind x1 cid x2 conv hconv create2 mid ts
          injection h with h2
          exact ⟨cid, dbUser, mid, ts, rfl, hfind, ⟨conv, hconv⟩, rfl, h2.symm⟩
    · exact Except.noConfusion h

/-- Trace shape of the `send_private_message` branch of
`PrivateChatConsumer.receive`: either no effect is performed, or persistence
succeeded and the trace is the save and timestamp touch, followed — when a
recipient could be resolved — by the publish to that recipient's inbox group
and the ack to the sender's socket. -/
theorem PrivateChatConsumer.receive_send_shape (sanitize : String → String)
    (db : DbState) (user : User) (fields : List (String × JsonValue))
    (create : Except PyError (String × String))
    (hty : (dictGet fields "type").isStr "send_private_message" = true) :
    (PrivateChatConsumer.receive sanitize db user
      (some (JsonValue.obj fields)) create).1 = [] ∨
    ∃ raw content cid mid ts dbUser,
      processContent sanitize raw = some content ∧
      create = Except.ok (mid, ts) ∧
      db.users.find? (fun x => x.id == user.id) = some dbUser ∧
      ((PrivateChatConsumer.receive sanitize db user
          (some (JsonValue.obj fields)) create).1 =
         [Effect.save_private_message user.id cid content,
          Effect.update_conversation_timestamp cid] ∨
       ∃ conv rid,
         db.conversations.find? (fun c => c.id == cid) = some conv ∧
         (conv.participants.filter (fun p => p != user.id)).head? = some rid ∧
         PrivateChatConsumer.receive sanitize db user
             (some (JsonValue.obj fields)) create =
           ([Effect.save_private_message user.id cid content,
             Effect.update_conversation_timestamp cid,
             Effect.group_send ("user_" ++ rid)
               (ChannelEvent.private_message
                 { id := mid, conversation_id := cid, senderId := dbUser.id,
                   senderUsername := dbUser.username, content := content,
                   timestamp := ts }),
             Effect.socket_send (OutFrame.private_message_sent
                 { id := mid, conversation_id := cid, senderId := dbUser.id,
                   senderUsername := dbUser.username, content := content,
                   timestamp := ts })], none)) := by
  unfold PrivateChatConsumer.receive
  dsimp only
  rw [if_pos hty]
  split
  · left; rfl
  · rename_i x0 raw hraw
    split
    · left; rfl
    · split
      · left; rfl
      · rename_i htr x1 content hpc
        split
        · left; rfl
        · rename_i x2 saveEffects message heq
          obtain ⟨cid, dbUser, mid, ts, hcidJ, hfind, ⟨conv0, hconv0⟩, hcreate, hpr⟩ :=
            send_private_message_ok_inv db create user.id
              (dictGet fields "conversation_id") content
              (saveEffects, message) heq
          simp only [Prod.mk.injEq] at hpr
          obtain ⟨hse, hm⟩ := hpr
          subst hse
          subst hm
          rw [hcidJ]
          simp only [get_conversation, get_recipient_id, hconv0]
          split
          · rename_i x3 e3 heq3
            exact Except.noConfusion heq3
          · right
            exact ⟨raw, content, cid, mid, ts, dbUser, hpc, hcreate, hfind,
              Or.inl rfl⟩
          · rename_i x3 rid hrid0
            injection hrid0 with hrid
            right
            exact ⟨raw, content, cid, mid, ts, dbUser, hpc, hcreate, hfind,
              Or.inr ⟨conv0, rid, hconv0, hrid, rfl⟩⟩

/-- C1: for a recognized send frame (send_global_message or
send_private_message), a publish happens only when the external persistence
call returned successfully with the canonical record, and then the trace is
exactly the save followed by the publish; with a failing (raising)
persistence call injected, no publish to any group occurs, on either
consumer. -/
theorem c1_publish_only_after_persistence :
    ∀ (sanitize : String → String) (user : User) (db : DbState)
      (err : PyError) (save : String → Except PyError SavedGlobal)
      (create : Except PyError (String × String)),
      (∀ parsed g ev,
        Effect.group_send g ev ∉
          (GlobalChatConsumer.receive sanitize user parsed
            (fun _ => Except.error err)).1) ∧
      (∀ fields g ev,
        (dictGet fields "type").isStr "send_private_message" = true →
        Effect.group_send g ev ∉
          (PrivateChatConsumer.receive sanitize db user
            (some (JsonValue.obj fields)) (Except.error err)).1) ∧
      (∀ parsed g ev,
        Effect.group_send g ev ∈
          (GlobalChatConsumer.receive sanitize user parsed save).1 →
        ∃ raw content saved,
          processContent sanitize raw = some content ∧
          save content = Except.ok saved ∧
          (GlobalChatConsumer.receive sanitize user parsed save).1 =
            [Effect.save_global_message user.id content,
             Effect.group_send "global_chat"
               (ChannelEvent.global_message
                 { id := saved.id, senderId := user.id,
                   senderUsername := user.username,
                   content := content, timestamp := saved.timestamp })]) ∧
      (∀ fields g ev,
        (dictGet fields "type").isStr "send_private_message" = true →
        Effect.group_send g ev ∈
          (PrivateChatConsumer.receive sanitize db user
            (some (JsonValue.obj fields)) create).1 →
        ∃ content cid mid ts message rid,
          create = Except.ok (mid, ts) ∧
          (PrivateChatConsumer.receive sanitize db user
            (some (JsonValue.obj fields)) create).1 =
            [Effect.save_private_message user.id cid content,
             Effect.update_conversation_timestamp cid,
             Effect.group_send ("user_" ++ rid)
               (ChannelEvent.private_message message),
             Effect.socket_send (OutFrame.private_message_sent message)]) := by
  intro sanitize user db err save create
  refine ⟨?_, ?_, ?_, ?_⟩
  · intro parsed g ev
    rcases GlobalChatConsumer.receive_shape sanitize user parsed
        (fun _ => Except.error err) with h | ⟨raw, content, saved, hpc, hsave, hre⟩
    · rw [h]
      exact List.not_mem_nil _
    · exact Except.noConfusion hsave
  · intro fields g ev hty
    rcases PrivateChatConsumer.receive_send_shape sanitize db user fields
        (Except.error err) hty with h |
        ⟨raw, content, cid, mid, ts, dbUser, hpc, hcreate, hfind, hcase⟩
    · rw [h]
      exact List.not_mem_nil _
    · exact Except.noConfusion hcreate
  · intro parsed g ev hmem
    rcases GlobalChatConsumer.receive_shape sanitize user parsed save with
        h | ⟨raw, content, saved, hpc, hsave, hre⟩
    · rw [h] at hmem
      exact absurd hmem (List.not_mem_nil _)
    · exact ⟨raw, content, saved, hpc, hsave, by rw [hre]⟩
  · intro fields g ev hty hmem
    rcases PrivateChatConsumer.receive_send_shape sanitize db user fields
        create hty with h |
        ⟨raw, content, cid, mid, ts, dbUser, hpc, hcreate, hfind, hcase⟩
    · rw [h] at hmem
      exact absurd hmem (List.not_mem_nil _)
    · rcases hcase with htrace | ⟨conv, rid, hconv, hrid, htrace⟩
      · rw [htrace] at hmem
        simp at hmem
      · exact ⟨content, cid, mid, ts,
          { id := mid, conversation_id := cid, senderId := dbUser.id,
            senderUsername := dbUser.username, content := content,
            timestamp := ts }, rid, hcreate, by rw [htrace]⟩

/-- Witness for C1 at a concrete input: with a failing persistence call
injected on a recognized private send, nothing is published to the
recipient's inbox group. -/
theorem c1_witness :
    Effect.group_send "user_B"
      (ChannelEvent.private_message
        { id := "m", conversation_id := "c1", senderId := "A",
          senderUsername := "alice", content := "hi", timestamp := "t" }) ∉
      (PrivateChatConsumer.receive stripTags emptyDb aliceU
        (some (JsonValue.obj [("type", JsonValue.str "send_private_message"),
                              ("conversation_id", JsonValue.str "c1"),
                              ("content", JsonValue.str "hi")]))
        (Except.error PyError.persistenceError)).1 :=
  (c1_publish_only_after_persistence stripTags aliceU emptyDb
    PyError.persistenceError (fun _ => Except.error PyError.persistenceError)
    (Except.error PyError.persistenceError)).2.1
    [("type", JsonValue.str "send_private_message"),
     ("conversation_id", JsonValue.str "c1"),
     ("content", JsonValue.str "hi")] "user_B" _ rfl

/-- A list whose head already fails the predicate is unchanged by
`dropWhile`. -/
theorem dropWhile_eq_self_of_all (p : Char → Bool) (l : List Char)
    (h : ∀ c ∈ l, p c = false) : l.dropWhile p = l := by
  cases l with
  | nil => rfl
  | cons x xs => simp [List.dropWhile_cons, h x (List.mem_cons_self x xs)]

/-- Stripping leaves a string without any whitespace characters unchanged. -/
theorem pyStrip_eq_self_of_no_ws (l : List Char)
    (h : ∀ c ∈ l, c.isWhitespace = false) : pyStrip ⟨l⟩ = ⟨l⟩ := by
  unfold pyStrip
  dsimp only
  rw [dropWhile_eq_self_of_all _ _ h,
      dropWhile_eq_self_of_all _ _ (fun c hc => h c (List.mem_reverse.mp hc)),
      List.reverse_reverse]

/-- Outside a tag, `stripTagsAux` keeps a list free of opening angle
brackets unchanged. -/
theorem stripTagsAux_no_open (l : List Char) (h : ∀ c ∈ l, c ≠ '<') :
    stripTagsAux l false = l := by
  induction l with
  | nil => rfl
  | cons x xs ih =>
    unfold stripTagsAux
    rw [if_neg (h x (List.mem_cons_self x xs))]
    rw [ih (fun c hc => h c (List.mem_cons_of_mem x hc))]

/-- Entering a tag at an opening bracket. -/
theorem stripTagsAux_open_bracket (cs : List Char) :
    stripTagsAux ('<' :: cs) false = stripTagsAux cs true := rfl

/-- Inside a tag, an ordinary character is dropped. -/
theorem stripTagsAux_inside_b (cs : List Char) :
    stripTagsAux ('b' :: cs) true = stripTagsAux cs true := rfl

/-- Leaving a tag at the closing bracket. -/
theorem stripTagsAux_close_bracket (cs : List Char) :
    stripTagsAux ('>' :: cs) true = stripTagsAux cs false := rfl

/-- The sanitizer drops a single leading tag from an otherwise
bracket-free run of characters. -/
theorem stripTags_leading_tag (n : Nat) :
    stripTags ⟨'<' :: 'b' :: '>' :: List.replicate n 'a'⟩ =
      ⟨List.replicate n 'a'⟩ := by
  unfold stripTags
  dsimp only
  rw [stripTagsAux_open_bracket, stripTagsAux_inside_b,
      stripTagsAux_close_bracket,
      stripTagsAux_no_open _ (fun c hc => by
        rw [List.eq_of_mem_replicate hc]
        decide)]

/-- Client-submitted content used by the C6 counterexample: a leading HTML
tag followed by exactly `MESSAGE_MAX_LENGTH` ordinary characters. -/
def longRawContent : String := ⟨'<' :: 'b' :: '>' :: List.replicate 2000 'a'⟩

/-- No character of the counterexample content is whitespace. -/
theorem longRawContent_no_ws :
    ∀ c ∈ ('<' :: 'b' :: '>' :: List.replicate 2000 'a' : List Char),
      c.isWhitespace = false := by
  intro c hc
  simp only [List.mem_cons, List.mem_replicate] at hc
  rcases hc with rfl | rfl | rfl | ⟨_, rfl⟩ <;> decide

/-- C6 counterexample: on content consisting of a leading tag followed by
2000 ordinary characters, the code's pipeline (sanitize then truncate) keeps
all 2000 characters, while the pipeline in the order the claim states
(truncate then sanitize) would keep only 1997 — the persisted content is not
what the claim's order of operations produces. -/
theorem c6_counterexample :
    processContent stripTags longRawContent =
      some (String.mk (List.replicate 2000 'a')) ∧
    specProcessContent stripTags longRawContent =
      some (String.mk (List.replicate 1997 'a')) ∧
    processContent stripTags longRawContent ≠
      specProcessContent stripTags longRawContent := by
  have hne : longRawContent ≠ "" := by
    intro h
    have h2 : ('<' :: 'b' :: '>' :: List.replicate 2000 'a' : List Char) =
        ([] : List Char) := congrArg String.data h
    exact List.noConfusion h2
  have hstrip : pyStrip longRawContent = longRawContent := by
    unfold longRawContent
    exact pyStrip_eq_self_of_no_ws _ longRawContent_no_ws
  have hsan2000 : stripTags longRawContent =
      String.mk (List.replicate 2000 'a') := by
    unfold longRawContent
    exact stripTags_leading_tag 2000
  have hlen2000 : pyLen (String.mk (List.replicate 2000 'a')) = 2000 := by
    unfold pyLen
    dsimp only
    rw [List.length_replicate]
  have hlenLong : pyLen longRawContent = 2003 := by
    unfold longRawContent pyLen
    dsimp only
    rw [List.length_cons, List.length_cons, List.length_cons,
        List.length_replicate]
  have htake : pySlice longRawContent MESSAGE_MAX_LENGTH =
      String.mk ('<' :: 'b' :: '>' :: List.replicate 1997 'a') := by
    unfold longRawContent pySlice
    dsimp only
    rw [show MESSAGE_MAX_LENGTH = 1999 + 1 from rfl, List.take_succ_cons,
        show (1999 : Nat) = 1998 + 1 from rfl, List.take_succ_cons,
        show (1998 : Nat) = 1997 + 1 from rfl, List.take_succ_cons,
        List.take_replicate]
    norm_num
  have hpc : processContent stripTags longRawContent =
      some (String.mk (List.replicate 2000 'a')) := by
    unfold processContent
    dsimp only
    rw [hstrip, if_neg hne, hsan2000, hlen2000,
        if_neg (by decide : ¬ MESSAGE_MAX_LENGTH < 2000)]
  have hspec : specProcessContent stripTags longRawContent =
      some (String.mk (List.replicate 1997 'a')) := by
    unfold specProcessContent
    dsimp only
    rw [hstrip, if_neg hne, hlenLong,
        if_pos (by decide : MESSAGE_MAX_LENGTH < 2003),
        htake, stripTags_leading_tag 1997]
  refine ⟨hpc, hspec, ?_⟩
  rw [hpc, hspec]
  intro h
  injection h with h2
  have h3 : List.replicate 2000 'a' = List.replicate 1997 'a' :=
    congrArg String.data h2
  have h4 : (List.replicate 2000 'a').length =
      (List.replicate 1997 'a').length := by rw [h3]
  rw [List.length_replicate, List.length_replicate] at h4
  exact absurd h4 (by decide)

/-- C6 (amended): the content pipeline for every recognized send frame is:
strip, non-empty validation (empty or whitespace-only content aborts the
send, so nothing is persisted or published), SANITIZATION, then TRUNCATION
to `MESSAGE_MAX_LENGTH` — sanitize and truncate in the reverse of the order
the claim states — and the persisted/published content never exceeds
`MESSAGE_MAX_LENGTH` characters; every content persisted by either
`receive` handler is an output of this pipeline. -/
theorem c6_validate_sanitize_truncate :
    ∀ (sanitize : String → String) (raw : String),
      (pyStrip raw = "" → processContent sanitize raw = none) ∧
      (pyStrip raw ≠ "" →
        processContent sanitize raw =
          some (if MESSAGE_MAX_LENGTH < pyLen (sanitize (pyStrip raw))
                then pySlice (sanitize (pyStrip raw)) MESSAGE_MAX_LENGTH
                else sanitize (pyStrip raw))) ∧
      (∀ content, processContent sanitize raw = some content →
        pyLen content ≤ MESSAGE_MAX_LENGTH) ∧
      (∀ (user : User) (parsed : Option JsonValue)
         (save : String → Except PyError SavedGlobal) (senderId content : String),
        Effect.save_global_message senderId content ∈
          (GlobalChatConsumer.receive sanitize user parsed save).1 →
        ∃ raw2, processContent sanitize raw2 = some content) ∧
      (∀ (db : DbState) (user : User) (fields : List (String × JsonValue))
         (create : Except PyError (String × String)) (senderId cid content : String),
        (dictGet fields "type").isStr "send_private_message" = true →
        Effect.save_private_message senderId cid content ∈
          (PrivateChatConsumer.receive sanitize db user
            (some (JsonValue.obj fields)) create).1 →
        ∃ raw2, processContent sanitize raw2 = some content) := by
  intro sanitize raw
  refine ⟨?_, ?_, ?_, ?_, ?_⟩
  · intro h
    unfold processContent
    dsimp only
    rw [if_pos h]
  · intro h
    unfold processContent
    dsimp only
    rw [if_neg h]
  · intro content h
    unfold processContent at h
    dsimp only at h
    split at h
    · exact Option.noConfusion h
    · injection h with h2
      subst h2
      split
      · unfold pySlice pyLen
        dsimp only
        rw [List.length_take]
        exact Nat.min_le_left _ _
      · rename_i hlt
        exact Nat.le_of_not_lt hlt
  · intro user parsed save senderId content hmem
    rcases GlobalChatConsumer.receive_shape sanitize user parsed save with
        h | ⟨raw2, content2, saved, hpc2, hsave, hre⟩
    · rw [h] at hmem
      exact absurd hmem (List.not_mem_nil _)
    · rw [hre] at hmem
      simp only [List.mem_cons, List.not_mem_nil, or_false] at hmem
      rcases hmem with hmem | hmem
      · have h2 : content = content2 := (Effect.save_global_message.injEq _ _ _ _).mp hmem |>.2
        exact ⟨raw2, by rw [h2]; exact hpc2⟩
      · exact absurd hmem (by simp)
  · intro db user fields create senderId cid content hty hmem
    rcases PrivateChatConsumer.receive_send_shape sanitize db user fields
        create hty with h |
        ⟨raw2, content2, cid2, mid, ts, dbUser, hpc2, hcreate, hfind, hcase⟩
    · rw [h] at hmem
      exact absurd hmem (List.not_mem_nil _)
    · have hfirst : (PrivateChatConsumer.receive sanitize db user
          (some (JsonValue.obj fields)) create).1.head? =
          some (Effect.save_private_message user.id cid2 content2) := by
        rcases hcase with htrace | ⟨conv, rid, hconv, hrid, htrace⟩
        · rw [htrace]; rfl
        · rw [htrace]; rfl
      rcases hcase with htrace | ⟨conv, rid, hconv, hrid, htrace⟩
      · rw [htrace] at hmem
        simp only [List.mem_cons, List.not_mem_nil, or_false] at hmem
        rcases hmem with hmem | hmem
        · have h2 : content = content2 :=
            ((Effect.save_private_message.injEq _ _ _ _ _ _).mp hmem).2.2
          exact ⟨raw2, by rw [h2]; exact hpc2⟩
        · exact absurd hmem (by simp)
      · rw [htrace] at hmem
        simp only [List.mem_cons, List.not_mem_nil, or_false] at hmem
        rcases hmem with hmem | hmem | hmem | hmem
        · have h2 : content = content2 :=
            ((Effect.save_private_message.injEq _ _ _ _ _ _).mp hmem).2.2
          exact ⟨raw2, by rw [h2]; exact hpc2⟩
        · exact absurd hmem (by simp)
        · exact absurd hmem (by simp)
        · exact absurd hmem (by simp)

/-- Witness for C6 at a concrete input: surrounding whitespace is stripped
and short content passes through the pipeline unchanged. -/
theorem c6_witness : processContent stripTags "  hi  " = some "hi" := by
  rw [(c6_validate_sanitize_truncate stripTags "  hi  ").2.1 (by decide)]
  decide

/-- C4 counterexample: a frame that is valid JSON but not an object — an
array for the global consumer, a number for the private consumer — raises an
uncaught `AttributeError` out of the frame handler (only
`json.JSONDecodeError` is caught), so the claim that every malformed frame
is dropped silently with no escaping exception is false. -/
theorem c4_counterexample :
    (GlobalChatConsumer.receive stripTags aliceU (some (JsonValue.arr []))
      (fun c => Except.ok { id := 1, content := c, timestamp := "t" })).2 =
      some PyError.attributeError ∧
    (PrivateChatConsumer.receive stripTags emptyDb aliceU
      (some (JsonValue.num 7)) (Except.ok ("m1", "t"))).2 =
      some PyError.attributeError :=
  ⟨rfl, rfl⟩

/-- C4 (amended): unparseable text frames and object frames whose type is
not a recognized one are dropped silently — no effect, no error frame, no
escaping exception — but a frame that is valid JSON and NOT an object
(array, number, string, boolean or null) raises an uncaught
`AttributeError` out of the frame handler, on both consumers. -/
theorem c4_unknown_dropped_nonobject_raises :
    ∀ (sanitize : String → String) (user : User) (db : DbState)
      (save : String → Except PyError SavedGlobal)
      (create : Except PyError (String × String)),
      GlobalChatConsumer.receive sanitize user none save = ([], none) ∧
      PrivateChatConsumer.receive sanitize db user none create = ([], none) ∧
      (∀ fields, (dictGet fields "type").isStr "send_global_message" = false →
        GlobalChatConsumer.receive sanitize user
          (some (JsonValue.obj fields)) save = ([], none)) ∧
      (∀ fields, (dictGet fields "type").isStr "send_private_message" = false →
        (dictGet fields "type").isStr "typing_start" = false →
        (dictGet fields "type").isStr "typing_stop" = false →
        PrivateChatConsumer.receive sanitize db user
          (some (JsonValue.obj fields)) create = ([], none)) ∧
      (∀ v : JsonValue, (∀ fields, v ≠ JsonValue.obj fields) →
        (GlobalChatConsumer.receive sanitize user (some v) save).2 =
          some PyError.attributeError ∧
        (PrivateChatConsumer.receive sanitize db user (some v) create).2 =
          some PyError.attributeError) := by
  intro sanitize user db save create
  refine ⟨rfl, rfl, ?_, ?_, ?_⟩
  · intro fields h
    unfold GlobalChatConsumer.receive
    dsimp only
    rw [if_neg (by simp [h])]
  · intro fields h1 h2 h3
    unfold PrivateChatConsumer.receive
    dsimp only
    rw [if_neg (by simp [h1]), if_neg (by simp [h2]), if_neg (by simp [h3])]
  · intro v hv
    cases v with
    | null => exact ⟨rfl, rfl⟩
    | bool b => exact ⟨rfl, rfl⟩
    | num n => exact ⟨rfl, rfl⟩
    | str s => exact ⟨rfl, rfl⟩
    | arr elems => exact ⟨rfl, rfl⟩
    | obj fields => exact absurd rfl (hv fields)

/-- Witness for C4 at a concrete input: an object frame with an unrecognized
type is dropped with no effect and no error. -/
theorem c4_witness :
    GlobalChatConsumer.receive stripTags aliceU
      (some (JsonValue.obj [("type", JsonValue.str "noop")]))
      (fun c => Except.ok { id := 1, content := c, timestamp := "t" }) =
      ([], none) :=
  (c4_unknown_dropped_nonobject_raises stripTags aliceU emptyDb
    (fun c => Except.ok { id := 1, content := c, timestamp := "t" })
    (Except.ok ("m1", "t"))).2.2.1 [("type", JsonValue.str "noop")] rfl

/-- Conversation fixture between users A and B. -/
def convAB : Conversation := { id := "c1", participants := ["A", "B"] }

/-- Database fixture: users A, B and X; one conversation between A and B. -/
def dbABX : DbState :=
  { users := [aliceU, bobU, xavierU], conversations := [convAB] }

/-- C3 counterexample: (i) sender X is not a participant of the existing
conversation c1, yet the send is not dropped — the message is persisted and
published to user A's inbox, and X receives an ack; (ii) for a conversation
id that does not exist, nothing is persisted or published but
`Conversation.DoesNotExist` escapes the frame handler instead of a silent
drop. -/
theorem c3_counterexample :
    PrivateChatConsumer.receive stripTags dbABX xavierU
      (some (JsonValue.obj [("type", JsonValue.str "send_private_message"),
                            ("conversation_id", JsonValue.str "c1"),
                            ("content", JsonValue.str "hi")]))
      (Except.ok ("m1", "t1")) =
      ([Effect.save_private_message "X" "c1" "hi",
        Effect.update_conversation_timestamp "c1",
        Effect.group_send "user_A" (ChannelEvent.private_message
          { id := "m1", conversation_id := "c1", senderId := "X",
            senderUsername := "xavier", content := "hi", timestamp := "t1" }),
        Effect.socket_send (OutFrame.private_message_sent
          { id := "m1", conversation_id := "c1", senderId := "X",
            senderUsername := "xavier", content := "hi", timestamp := "t1" })],
       none) ∧
    PrivateChatConsumer.receive stripTags dbABX xavierU
      (some (JsonValue.obj [("type", JsonValue.str "send_private_message"),
                            ("conversation_id", JsonValue.str "nope"),
                            ("content", JsonValue.str "hi")]))
      (Except.ok ("m1", "t1")) =
      ([], some PyError.conversationDoesNotExist) :=
  ⟨rfl, rfl⟩

/-- C3 (amended): for a send_private_message frame naming a conversation id
that is not found, nothing is persisted or published and no error frame is
sent, but the send is not silently dropped: `Conversation.DoesNotExist`
escapes the frame handler.  When the conversation exists the code performs
no participant check: the message is persisted regardless of whether the
sender belongs to the conversation, and, when the conversation has any
participant other than the sender, it is published to the first such
participant's inbox with an ack to the sender. -/
theorem c3_unresolvable_conversation_not_dropped :
    ∀ (sanitize : String → String) (db : DbState) (user dbUser : User)
      (create : Except PyError (String × String)) (cid w content : String),
      db.users.find? (fun x => x.id == user.id) = some dbUser →
      processContent sanitize w = some content →
      cid ≠ "" →
      (db.conversations.find? (fun c => c.id == cid) = none →
        PrivateChatConsumer.receive sanitize db user
          (some (JsonValue.obj [("type", JsonValue.str "send_private_message"),
                                ("conversation_id", JsonValue.str cid),
                                ("content", JsonValue.str w)])) create =
          ([], some PyError.conversationDoesNotExist)) ∧
      (∀ conv mid ts rid,
        db.conversations.find? (fun c => c.id == cid) = some conv →
        (conv.participants.filter (fun p => p != user.id)).head? = some rid →
        create = Except.ok (mid, ts) →
        PrivateChatConsumer.receive sanitize db user
          (some (JsonValue.obj [("type", JsonValue.str "send_private_message"),
                                ("conversation_id", JsonValue.str cid),
                                ("content", JsonValue.str w)])) create =
          ([Effect.save_private_message user.id cid content,
            Effect.update_conversation_timestamp cid,
            Effect.group_send ("user_" ++ rid) (ChannelEvent.private_message
              { id := mid, conversation_id := cid, senderId := dbUser.id,
                senderUsername := dbUser.username, content := content,
                timestamp := ts }),
            Effect.socket_send (OutFrame.private_message_sent
              { id := mid, conversation_id := cid, senderId := dbUser.id,
                senderUsername := dbUser.username, content := content,
                timestamp := ts })], none)) := by
  intro sanitize db user dbUser create cid w content hfind hpc hcid
  constructor
  · intro hnone
    unfold PrivateChatConsumer.receive PrivateChatConsumer.send_private_message
    simp [dictGet, dictGetD, List.find?, JsonValue.isStr, JsonValue.strOrAttrError,
          JsonValue.truthy, get_conversation, get_recipient_id,
          hfind, hpc, hnone, hcid]
  · intro conv mid ts rid hconv hrid hcreate
    unfold PrivateChatConsumer.receive PrivateChatConsumer.send_private_message
    simp [dictGet, dictGetD, List.find?, JsonValue.isStr, JsonValue.strOrAttrError,
          JsonValue.truthy, get_conversation, get_recipient_id,
          hfind, hpc, hconv, hrid, hcreate, hcid]

/-- Witness for C3 at a concrete input: a participant sender routes to the
other participant, exercising the resolvable branch of the amended claim. -/
theorem c3_witness :
    PrivateChatConsumer.receive stripTags dbABX aliceU
      (some (JsonValue.obj [("type", JsonValue.str "send_private_message"),
                            ("conversation_id", JsonValue.str "c1"),
                            ("content", JsonValue.str "hi")]))
      (Except.ok ("m1", "t1")) =
      ([Effect.save_private_message "A" "c1" "hi",
        Effect.update_conversation_timestamp "c1",
        Effect.group_send "user_B" (ChannelEvent.private_message
          { id := "m1", conversation_id := "c1", senderId := "A",
            senderUsername := "alice", content := "hi", timestamp := "t1" }),
        Effect.socket_send (OutFrame.private_message_sent
          { id := "m1", conversation_id := "c1", senderId := "A",
            senderUsername := "alice", content := "hi", timestamp := "t1" })],
       none) :=
  (c3_unresolvable_conversation_not_dropped stripTags dbABX aliceU aliceU
    (Except.ok ("m1", "t1")) "c1" "hi" "hi" rfl rfl (by decide)).2
    convAB "m1" "t1" "B" rfl rfl rfl

/-- The head of a filtered list satisfies the filter predicate: the first
participant other than the current user is never the current user. -/
theorem head?_filter_bne (l : List String) (a rid : String)
    (h : (l.filter (fun p => p != a)).head? = some rid) : rid ≠ a := by
  have hmem : rid ∈ l.filter (fun p => p != a) :=
    List.mem_of_mem_head? (by rw [h]; rfl)
  exact bne_iff_ne.mp (List.mem_filter.mp hmem).2

/-- C9: a typing_start or typing_stop frame with a resolvable conversation
changes no persistent state — its whole trace is a single publish of a
typing_indicator envelope to the other participant's inbox group, and the
presence cache is untouched; the resolved recipient is never the sender, so
the indicator is never delivered to a session whose groups do not include
the recipient's inbox — in particular never to a session subscribed only to
the sender's own inbox group. -/
theorem c9_typing_indicator_no_persist_no_echo :
    ∀ (sanitize : String → String) (db : DbState) (user : User)
      (create : Except PyError (String × String)) (cid : String)
      (conv : Conversation) (rid ty : String),
      (ty = "typing_start" ∨ ty = "typing_stop") →
      cid ≠ "" →
      db.conversations.find? (fun c => c.id == cid) = some conv →
      (conv.participants.filter (fun p => p != user.id)).head? = some rid →
      (PrivateChatConsumer.receive sanitize db user
          (some (JsonValue.obj [("type", JsonValue.str ty),
                                ("conversation_id", JsonValue.str cid)]))
          create =
        ([Effect.group_send ("user_" ++ rid)
            (ChannelEvent.typing_indicator user.id user.username cid
              (if ty = "typing_start" then "typing" else "stopped"))], none)) ∧
      rid ≠ user.id ∧
      ("user_" ++ rid) ≠ ("user_" ++ user.id) ∧
      (∀ cache : CacheState,
        applyEffects cache
          (PrivateChatConsumer.receive sanitize db user
            (some (JsonValue.obj [("type", JsonValue.str ty),
                                  ("conversation_id", JsonValue.str cid)]))
            create).1 = cache) ∧
      (∀ origin target : Session,
        ("user_" ++ rid) ∉ target.groups →
        deliveredFrames origin target
          (PrivateChatConsumer.receive sanitize db user
            (some (JsonValue.obj [("type", JsonValue.str ty),
                                  ("conversation_id", JsonValue.str cid)]))
            create).1 = []) := by
  intro sanitize db user create cid conv rid ty hty hcid hconv hrid
  have hne : rid ≠ user.id := head?_filter_bne _ _ _ hrid
  have htrace : PrivateChatConsumer.receive sanitize db user
      (some (JsonValue.obj [("type", JsonValue.str ty),
                            ("conversation_id", JsonValue.str cid)]))
      create =
      ([Effect.group_send ("user_" ++ rid)
          (ChannelEvent.typing_indicator user.id user.username cid
            (if ty = "typing_start" then "typing" else "stopped"))], none) := by
    rcases hty with rfl | rfl <;>
      (unfold PrivateChatConsumer.receive
       simp [dictGet, dictGetD, List.find?, JsonValue.isStr, JsonValue.truthy,
             JsonValue.asString, get_conversation, get_recipient_id,
             hconv, hrid, hcid])
  refine ⟨htrace, hne, ?_, ?_, ?_⟩
  · intro h
    exact hne (string_append_left_cancel h)
  · intro cache
    rw [htrace]
    simp [applyEffects, applyEffect]
  · intro origin target hnot
    rw [htrace]
    simp [deliveredFrames, hnot]

/-- Witness for C9 at a concrete input: a typing_start from A in the A-B
conversation publishes one typing_indicator to B's inbox. -/
theorem c9_witness :
    PrivateChatConsumer.receive stripTags dbABX aliceU
      (some (JsonValue.obj [("type", JsonValue.str "typing_start"),
                            ("conversation_id", JsonValue.str "c1")]))
      (Except.ok ("m1", "t1")) =
      ([Effect.group_send "user_B"
          (ChannelEvent.typing_indicator "A" "alice" "c1" "typing")], none) := by
  have h := (c9_typing_indicator_no_persist_no_echo stripTags dbABX aliceU
    (Except.ok ("m1", "t1")) "c1" convAB "B" "typing_start"
    (Or.inl rfl) (by decide) rfl rfl).1
  simpa using h

/-- C7: a successfully routed private message in a two-participant
conversation between A and B, sent by A, is published only to B's inbox
group; each of B's inbox sessions receives exactly the private_message
envelope; the sending session receives exactly one private_message_sent
ack and no private_message copy of its own send; a session subscribed to a
third user's inbox receives nothing. -/
theorem c7_private_routing_only_other_participant :
    ∀ (sanitize : String → String) (db : DbState) (a b : User)
      (cid w content mid ts chA : String) (conv : Conversation),
      db.users.find? (fun x => x.id == a.id) = some a →
      db.conversations.find? (fun c => c.id == cid) = some conv →
      (conv.participants = [a.id, b.id] ∨ conv.participants = [b.id, a.id]) →
      a.id ≠ b.id →
      cid ≠ "" →
      processContent sanitize w = some content →
      (let msg : PrivateMsgPayload :=
        { id := mid, conversation_id := cid, senderId := a.id,
          senderUsername := a.username, content := content, timestamp := ts }
       let r := PrivateChatConsumer.receive sanitize db a
          (some (JsonValue.obj [("type", JsonValue.str "send_private_message"),
                                ("conversation_id", JsonValue.str cid),
                                ("content", JsonValue.str w)]))
          (Except.ok (mid, ts))
       let sA : Session := { kind := ConsumerKind.privateInbox, user := a,
                             channel := chA, groups := ["user_" ++ a.id] }
       r = ([Effect.save_private_message a.id cid content,
             Effect.update_conversation_timestamp cid,
             Effect.group_send ("user_" ++ b.id)
               (ChannelEvent.private_message msg),
             Effect.socket_send (OutFrame.private_message_sent msg)], none) ∧
       (∀ g ev, Effect.group_send g ev ∈ r.1 → g = "user_" ++ b.id) ∧
       deliveredFrames sA sA r.1 = [OutFrame.private_message_sent msg] ∧
       (∀ chB, chB ≠ chA →
         deliveredFrames sA
           { kind := ConsumerKind.privateInbox, user := b,
             channel := chB, groups := ["user_" ++ b.id] } r.1 =
           [OutFrame.private_message msg]) ∧
       (∀ (c : User) (chC : String), chC ≠ chA → c.id ≠ b.id →
         deliveredFrames sA
           { kind := ConsumerKind.privateInbox, user := c,
             channel := chC, groups := ["user_" ++ c.id] } r.1 = [])) := by
  intro sanitize db a b cid w content mid ts chA conv
    hfindA hconv hparts hab hcid hpc
  dsimp only
  have hself : (a.id != a.id) = false := bne_self_eq_false a.id
  have hba : (b.id != a.id) = true := bne_iff_ne.mpr (fun h => hab h.symm)
  have hrid : (conv.participants.filter (fun p => p != a.id)).head? =
      some b.id := by
    rcases hparts with hp | hp <;> rw [hp] <;>
      simp [List.filter_cons, hself, hba]
  have htrace : PrivateChatConsumer.receive sanitize db a
      (some (JsonValue.obj [("type", JsonValue.str "send_private_message"),
                            ("conversation_id", JsonValue.str cid),
                            ("content", JsonValue.str w)]))
      (Except.ok (mid, ts)) =
      ([Effect.save_private_message a.id cid content,
        Effect.update_conversation_timestamp cid,
        Effect.group_send ("user_" ++ b.id)
          (ChannelEvent.private_message
            { id := mid, conversation_id := cid, senderId := a.id,
              senderUsername := a.username, content := content,
              timestamp := ts }),
        Effect.socket_send (OutFrame.private_message_sent
          { id := mid, conversation_id := cid, senderId := a.id,
            senderUsername := a.username, content := content,
            timestamp := ts })], none) := by
    unfold PrivateChatConsumer.receive PrivateChatConsumer.send_private_message
    simp [dictGet, dictGetD, List.find?, JsonValue.isStr,
          JsonValue.strOrAttrError, JsonValue.truthy,
          get_conversation, get_recipient_id,
          hfindA, hconv, hrid, hpc, hcid]
  have hgne : ("user_" ++ b.id) ≠ ("user_" ++ a.id) := by
    intro h
    exact hab (string_append_left_cancel h).symm
  refine ⟨htrace, ?_, ?_, ?_, ?_⟩
  · intro g ev hmem
    rw [htrace] at hmem
    simp only [List.mem_cons, List.not_mem_nil, or_false] at hmem
    rcases hmem with hmem | hmem | hmem | hmem
    · exact absurd hmem (by simp)
    · exact absurd hmem (by simp)
    · exact ((Effect.group_send.injEq _ _ _ _).mp hmem).1
    · exact absurd hmem (by simp)
  · rw [htrace]
    simp [deliveredFrames, List.mem_singleton, hgne]
  · intro chB hch
    rw [htrace]
    simp [deliveredFrames, dispatch, PrivateChatConsumer.private_message, hch]
  · intro c chC hch hcb
    have hgc : ("user_" ++ b.id) ≠ ("user_" ++ c.id) := by
      intro h
      exact hcb (string_append_left_cancel h).symm
    rw [htrace]
    simp [deliveredFrames, hgc, hch]

/-- Witness for C7 at a concrete input: A sends in the A-B conversation;
B's inbox gets the envelope and A's session gets exactly the ack. -/
theorem c7_witness :
    deliveredFrames
      { kind := ConsumerKind.privateInbox, user := aliceU,
        channel := "chA", groups := ["user_A"] }
      { kind := ConsumerKind.privateInbox, user := aliceU,
        channel := "chA", groups := ["user_A"] }
      (PrivateChatConsumer.receive stripTags dbABX aliceU
        (some (JsonValue.obj [("type", JsonValue.str "send_private_message"),
                              ("conversation_id", JsonValue.str "c1"),
                              ("content", JsonValue.str "yo")]))
        (Except.ok ("m1", "t1"))).1 =
      [OutFrame.private_message_sent
        { id := "m1", conversation_id := "c1", senderId := "A",
          senderUsername := "alice", content := "yo", timestamp := "t1" }] := by
  have h := (c7_private_routing_only_other_participant stripTags dbABX
    aliceU bobU "c1" "yo" "yo" "m1" "t1" "chA" convAB
    rfl rfl (Or.inl rfl) (by decide) (by decide) rfl).2.2.1
  simpa using h
